import Mathlib

/-!
Verification of the BRVM technical-analysis engine
(`brvm_bot_ultimate.py` and the portfolio simulator of `app.py`).

Python/pandas floating values are modelled by `PyFloat`: a finite rational,
or one of the IEEE special values NaN / +inf / -inf.  All comparisons with
NaN are false, arithmetic propagates NaN, and division by a finite zero
produces a signed infinity or NaN, as in numpy.  Signed zero is identified
with zero (the code never branches on the sign of a zero).
-/

inductive PyFloat where
  | fin : ℚ → PyFloat
  | nan : PyFloat
  | inf : PyFloat
  | ninf : PyFloat
deriving DecidableEq

namespace PyFloat

/-- Python strict less-than on floats: false whenever NaN is involved. -/
def flt : PyFloat → PyFloat → Bool
  | fin a, fin b => a < b
  | fin _, inf => true
  | ninf, fin _ => true
  | ninf, inf => true
  | _, _ => false

/-- Python less-or-equal on floats: false whenever NaN is involved. -/
def fle : PyFloat → PyFloat → Bool
  | fin a, fin b => a ≤ b
  | fin _, inf => true
  | ninf, _ninf => true
  | inf, inf => true
  | _, _ => false

/-- Python greater-than, written as a flipped less-than. -/
def fgt (a b : PyFloat) : Bool := flt b a

/-- Python equality on floats: NaN is equal to nothing, including itself. -/
def feq : PyFloat → PyFloat → Bool
  | fin a, fin b => a = b
  | inf, inf => true
  | ninf, ninf => true
  | _, _ => false

/-- Python inequality on floats (note NaN != x is always true). -/
def fne (a b : PyFloat) : Bool := !(feq a b)

def fneg : PyFloat → PyFloat
  | fin a => fin (-a)
  | nan => nan
  | inf => ninf
  | ninf => inf

def fadd : PyFloat → PyFloat → PyFloat
  | nan, _ => nan
  | _, nan => nan
  | inf, ninf => nan
  | ninf, inf => nan
  | inf, _ => inf
  | _, inf => inf
  | ninf, _ => ninf
  | _, ninf => ninf
  | fin a, fin b => fin (a + b)

def fsub (a b : PyFloat) : PyFloat := fadd a (fneg b)

def fmul : PyFloat → PyFloat → PyFloat
  | nan, _ => nan
  | _, nan => nan
  | fin a, fin b => fin (a * b)
  | inf, fin b => if 0 < b then inf else if b < 0 then ninf else nan
  | fin a, inf => if 0 < a then inf else if a < 0 then ninf else nan
  | ninf, fin b => if 0 < b then ninf else if b < 0 then inf else nan
  | fin a, ninf => if 0 < a then ninf else if a < 0 then inf else nan
  | inf, inf => inf
  | inf, ninf => ninf
  | ninf, inf => ninf
  | ninf, ninf => inf

def fdiv : PyFloat → PyFloat → PyFloat
  | nan, _ => nan
  | _, nan => nan
  | fin a, fin b =>
      if b = 0 then (if a = 0 then nan else if 0 < a then inf else ninf)
      else fin (a / b)
  | fin _, inf => fin 0
  | fin _, ninf => fin 0
  | inf, fin b => if 0 ≤ b then inf else ninf
  | ninf, fin b => if 0 ≤ b then ninf else inf
  | inf, _ => nan
  | ninf, _ => nan

/-- Python abs on floats. -/
def fabs : PyFloat → PyFloat
  | fin a => fin (if a < 0 then -a else a)
  | nan => nan
  | inf => inf
  | ninf => inf

end PyFloat

/-- pandas `pd.notna`: true for every value except NaN (infinities are not NA). -/
def pd_notna : PyFloat → Bool
  | PyFloat.nan => false
  | _ => true

/-- Python `int(x)` applied to a finite float: truncation toward zero. -/
def pyTrunc (q : ℚ) : ℤ := if 0 ≤ q then q.floor else q.ceil

/-- Python `int(x)` on a float value. On NaN it raises ValueError and on an
infinity it raises OverflowError, modelled by `none`. -/
def pyIntF : PyFloat → Option ℤ
  | PyFloat.fin q => some (pyTrunc q)
  | _ => none

/-- Python `round` to an integer: round half to even (banker's rounding). -/
def pyRoundHalfEven (x : ℚ) : ℤ :=
  let n := x.floor
  if x - (n : ℚ) < 1 / 2 then n
  else if 1 / 2 < x - (n : ℚ) then n + 1
  else if n % 2 = 0 then n else n + 1

/-- Powers of ten, written without a typeclass power so that it evaluates. -/
def pow10 : ℕ → ℚ
  | 0 => 1
  | n + 1 => 10 * pow10 n

/-- Python `round(x, ndigits)` on a float value: finite values are rounded
half-to-even at `n` decimal digits, NaN and infinities pass through. -/
def pyRoundDig : PyFloat → ℕ → PyFloat
  | PyFloat.fin q, n =>
      PyFloat.fin ((pyRoundHalfEven (q * pow10 n) : ℚ) / pow10 n)
  | x, _ => x

/-- pandas `Series.diff()`: first entry NaN, then successive differences. -/
def pdDiff : List PyFloat → List PyFloat
  | [] => []
  | x :: xs => PyFloat.nan :: List.zipWith PyFloat.fsub xs (x :: xs)

/-- Sum of a list of float values (NaN-propagating, like Python `sum`). -/
def pfSum (l : List PyFloat) : PyFloat := l.foldl PyFloat.fadd (PyFloat.fin 0)

/-- pandas `Series.rolling(window=w).mean()`: entry `i` is the mean of the
trailing `w` entries when `i + 1 >= w`, else NaN; a NaN inside the window
makes the result NaN (default `min_periods` equals the window). -/
def rollingMean (w : ℕ) (xs : List PyFloat) : List PyFloat :=
  (List.range xs.length).map (fun i =>
    if i + 1 < w then PyFloat.nan
    else PyFloat.fdiv (pfSum ((xs.take (i + 1)).drop (i + 1 - w))) (PyFloat.fin w))

/-- pandas `Series.clip(lower=0)` applied pointwise. -/
def clipLower0 : PyFloat → PyFloat
  | PyFloat.fin a => PyFloat.fin (if a < 0 then 0 else a)
  | PyFloat.nan => PyFloat.nan
  | PyFloat.inf => PyFloat.inf
  | PyFloat.ninf => PyFloat.fin 0

/-- pandas `Series.clip(upper=0)` applied pointwise. -/
def clipUpper0 : PyFloat → PyFloat
  | PyFloat.fin a => PyFloat.fin (if 0 < a then 0 else a)
  | PyFloat.nan => PyFloat.nan
  | PyFloat.inf => PyFloat.fin 0
  | PyFloat.ninf => PyFloat.ninf

/-- pandas `Series.sum()` over a column: NaN entries are skipped. -/
def pandasSum (l : List PyFloat) : PyFloat :=
  l.foldl (fun acc x => match x with
    | PyFloat.nan => acc
    | y => PyFloat.fadd acc y) (PyFloat.fin 0)

/-- Sequencing of an option-valued map over a list: a loop body that can
raise (modelled by `none`) aborts the whole loop. -/
def optMapList (f : α → Option β) : List α → Option (List β)
  | [] => some []
  | x :: xs => (f x).bind (fun y => (optMapList f xs).map (fun ys => y :: ys))

-- ===========================================================================
-- Configuration constants of brvm_bot_ultimate.py
-- ===========================================================================

def STOP_LOSS_PCT : ℚ := -5
def TAKE_PROFIT_PCT : ℚ := 10
def POSITION_SIZE_PCT : ℚ := 10

-- ===========================================================================
-- calculer_rsi / calculer_moyennes_mobiles (brvm_bot_ultimate.py 107-126)
-- ===========================================================================

/-- `calculer_rsi(prices, period)` from brvm_bot_ultimate.py. -/
def calculer_rsi (prices : List PyFloat) (period : ℕ) : List PyFloat :=
  let delta := pdDiff prices
  let gain := delta.map clipLower0
  let loss := delta.map (fun d => PyFloat.fneg (clipUpper0 d))
  let avg_gain := rollingMean period gain
  let avg_loss := rollingMean period loss
  let rs := List.zipWith PyFloat.fdiv avg_gain avg_loss
  rs.map (fun r =>
    PyFloat.fsub (PyFloat.fin 100)
      (PyFloat.fdiv (PyFloat.fin 100) (PyFloat.fadd (PyFloat.fin 1) r)))

/-- `calculer_moyennes_mobiles(prices)` from brvm_bot_ultimate.py. -/
def calculer_moyennes_mobiles (prices : List PyFloat) : List PyFloat × List PyFloat :=
  (rollingMean 20 prices, rollingMean 50 prices)

-- ===========================================================================
-- calculer_score (brvm_bot_ultimate.py 133-178)
-- ===========================================================================

/-- RSI criterion of `calculer_score` (0-3 points), guarded by `pd.notna(rsi)`. -/
def score_rsi (rsi : PyFloat) : ℤ :=
  if pd_notna rsi then
    if PyFloat.flt rsi (PyFloat.fin 30) then 3
    else if PyFloat.flt rsi (PyFloat.fin 40) then 2
    else if PyFloat.flt rsi (PyFloat.fin 50) then 1
    else 0
  else 0

/-- Moving-average criterion of `calculer_score` (0-3 points), guarded by
`pd.notna(mm20) and pd.notna(mm50)`; note that the `prix > mm20` point is
inside the same guard. -/
def score_mm (mm20 mm50 prix : PyFloat) : ℤ :=
  if pd_notna mm20 && pd_notna mm50 then
    (if PyFloat.fgt mm20 mm50 then 2 else 0) +
    (if PyFloat.fgt prix mm20 then 1 else 0)
  else 0

/-- Variation criterion of `calculer_score` (-1 to 3 points); no NaN guard in
the source, but every comparison with NaN is false. -/
def score_var (variation : PyFloat) : ℤ :=
  if PyFloat.fgt variation (PyFloat.fin 5) then 3
  else if PyFloat.fgt variation (PyFloat.fin 2) then 2
  else if PyFloat.fgt variation (PyFloat.fin 0) then 1
  else if PyFloat.flt variation (PyFloat.fin (-5)) then -1
  else 0

/-- The accumulated value of the local `score` variable of `calculer_score`
just before the final clamp. -/
def calculer_score_raw (rsi mm20 mm50 prix variation : PyFloat) : ℤ :=
  score_rsi rsi + score_mm mm20 mm50 prix + score_var variation

/-- `calculer_score(rsi, mm20, mm50, prix, variation)`: the accumulated
points clamped into [0, 10] by `max(0, min(10, score))`. -/
def calculer_score (rsi mm20 mm50 prix variation : PyFloat) : ℤ :=
  max 0 (min 10 (calculer_score_raw rsi mm20 mm50 prix variation))

-- ===========================================================================
-- generer_signal (brvm_bot_ultimate.py 181-190)
-- ===========================================================================

/-- `generer_signal(score)` from brvm_bot_ultimate.py. -/
def generer_signal (score : ℤ) : String :=
  if 7 ≤ score then "🔥 ACHAT FORT"
  else if 5 ≤ score then "✅ ACHAT"
  else if 3 ≤ score then "⚠️ SURVEILLER"
  else "❌ ATTENTE"

/-- Aggressiveness rank of a signal label, for stating monotonicity:
wait < watch < buy < strong buy. -/
def signal_rank (s : String) : ℤ :=
  if s = "🔥 ACHAT FORT" then 3
  else if s = "✅ ACHAT" then 2
  else if s = "⚠️ SURVEILLER" then 1
  else 0

-- ===========================================================================
-- AnalyseurBRVM.analyser (brvm_bot_ultimate.py 237-325)
-- ===========================================================================

/-- One row of the analysis result, with the fields built at lines 300-318
of brvm_bot_ultimate.py (the as-of date is an external concern and omitted). -/
structure AnalysisRecord where
  valeur : String
  prix : PyFloat
  rsi : PyFloat
  mm20 : PyFloat
  mm50 : PyFloat
  var_14j : PyFloat
  score : ℤ
  signal : String
  stop_Loss : PyFloat
  take_Profit : PyFloat
  trailing_Stop : PyFloat
  nb_Actions : ℤ
  montant_FCFA : PyFloat
  gain_Potentiel : PyFloat
  perte_Potentielle : PyFloat
  ratio_RR : PyFloat
deriving DecidableEq

/-- Local `prix_actuel` of the analyser loop: the last close of the series. -/
def prix_actuel (closes : List PyFloat) : PyFloat := closes.getLastD PyFloat.nan

/-- Local `rsi_actuel`: last value of `calculer_rsi(closes, 14)`. -/
def rsi_actuel (closes : List PyFloat) : PyFloat :=
  (calculer_rsi closes 14).getLastD PyFloat.nan

/-- Local `mm20_actuel`: last value of the 20-period moving average. -/
def mm20_actuel (closes : List PyFloat) : PyFloat :=
  (calculer_moyennes_mobiles closes).1.getLastD PyFloat.nan

/-- Local `mm50_actuel`: last value of the 50-period moving average. -/
def mm50_actuel (closes : List PyFloat) : PyFloat :=
  (calculer_moyennes_mobiles closes).2.getLastD PyFloat.nan

/-- Local `variation`: 14-day percentage change, or the integer 0 when the
series is shorter than 14 observations. -/
def variation_14 (closes : List PyFloat) : PyFloat :=
  if 14 ≤ closes.length then
    let prix_14j := closes.getD (closes.length - 14) PyFloat.nan
    PyFloat.fmul
      (PyFloat.fdiv (PyFloat.fsub (prix_actuel closes) prix_14j) prix_14j)
      (PyFloat.fin 100)
  else PyFloat.fin 0

/-- Local `score` of the analyser loop. -/
def score_of (closes : List PyFloat) : ℤ :=
  calculer_score (rsi_actuel closes) (mm20_actuel closes) (mm50_actuel closes)
    (prix_actuel closes) (variation_14 closes)

/-- Local `stop_loss`: `prix_actuel * (1 + stop_loss_pct / 100)`. -/
def stop_loss_of (closes : List PyFloat) : PyFloat :=
  PyFloat.fmul (prix_actuel closes) (PyFloat.fin (1 + STOP_LOSS_PCT / 100))

/-- Local `take_profit`: `prix_actuel * (1 + take_profit_pct / 100)`. -/
def take_profit_of (closes : List PyFloat) : PyFloat :=
  PyFloat.fmul (prix_actuel closes) (PyFloat.fin (1 + TAKE_PROFIT_PCT / 100))

/-- Local `trailing_stop`: `prix_actuel * 0.97`. -/
def trailing_stop_of (closes : List PyFloat) : PyFloat :=
  PyFloat.fmul (prix_actuel closes) (PyFloat.fin (97 / 100))

/-- The position-sizing computation shared by brvm_bot_ultimate.py line 292
and app.py line 432: `int(budget / prix)`. `none` models the exception that
Python `int()` raises on an infinite or NaN quotient. -/
def nb_actions_of (budget : ℚ) (prix : PyFloat) : Option ℤ :=
  pyIntF (PyFloat.fdiv (PyFloat.fin budget) prix)

/-- Local `gain_potentiel`: `(take_profit - prix_actuel) * nb_actions`. -/
def gain_potentiel_of (closes : List PyFloat) (nb_actions : ℤ) : PyFloat :=
  PyFloat.fmul (PyFloat.fsub (take_profit_of closes) (prix_actuel closes))
    (PyFloat.fin (nb_actions : ℚ))

/-- Local `perte_potentielle`: `(prix_actuel - stop_loss) * nb_actions`. -/
def perte_potentielle_of (closes : List PyFloat) (nb_actions : ℤ) : PyFloat :=
  PyFloat.fmul (PyFloat.fsub (prix_actuel closes) (stop_loss_of closes))
    (PyFloat.fin (nb_actions : ℚ))

/-- Local `ratio_risk_reward`: `abs(gain / perte) if perte != 0 else 0`. -/
def ratio_rr_of (closes : List PyFloat) (nb_actions : ℤ) : PyFloat :=
  if PyFloat.fne (perte_potentielle_of closes nb_actions) (PyFloat.fin 0) then
    PyFloat.fabs (PyFloat.fdiv (gain_potentiel_of closes nb_actions)
      (perte_potentielle_of closes nb_actions))
  else PyFloat.fin 0

/-- Body of the analyser loop for one instrument that passed the history
check: computes indicators, score, signal, risk parameters and the position,
and assembles the result row. `none` models the exception raised by
`int(position_size / prix_actuel)` when the quotient is not finite. -/
def analyser_entry (capital : ℚ) (valeur : String) (closes : List PyFloat) :
    Option AnalysisRecord :=
  (nb_actions_of (capital * (POSITION_SIZE_PCT / 100)) (prix_actuel closes)).map
    (fun nb_actions =>
      { valeur := valeur
        prix := prix_actuel closes
        rsi := if pd_notna (rsi_actuel closes) then pyRoundDig (rsi_actuel closes) 1
               else PyFloat.fin 0
        mm20 := if pd_notna (mm20_actuel closes) then pyRoundDig (mm20_actuel closes) 0
                else PyFloat.fin 0
        mm50 := if pd_notna (mm50_actuel closes) then pyRoundDig (mm50_actuel closes) 0
                else PyFloat.fin 0
        var_14j := pyRoundDig (variation_14 closes) 2
        score := score_of closes
        signal := generer_signal (score_of closes)
        stop_Loss := pyRoundDig (stop_loss_of closes) 0
        take_Profit := pyRoundDig (take_profit_of closes) 0
        trailing_Stop := pyRoundDig (trailing_stop_of closes) 0
        nb_Actions := nb_actions
        montant_FCFA := pyRoundDig
          (PyFloat.fmul (PyFloat.fin (nb_actions : ℚ)) (prix_actuel closes)) 0
        gain_Potentiel := pyRoundDig (gain_potentiel_of closes nb_actions) 0
        perte_Potentielle := pyRoundDig (perte_potentielle_of closes nb_actions) 0
        ratio_RR := pyRoundDig (ratio_rr_of closes nb_actions) 2 })

/-- Stable insertion of a record into a list that is sorted by descending
score: the record goes after every record with a score at least as large. -/
def insertScoreDesc (r : AnalysisRecord) : List AnalysisRecord → List AnalysisRecord
  | [] => [r]
  | x :: xs => if x.score < r.score then r :: x :: xs else x :: insertScoreDesc r xs

/-- Sorting of the collected rows by descending score. -/
def sortScoreDesc : List AnalysisRecord → List AnalysisRecord
  | [] => []
  | x :: xs => insertScoreDesc x (sortScoreDesc xs)

/-- `results_df.sort_values('Score', ascending=False)` at line 321. On an
empty row list `pd.DataFrame([])` has no Score column, so `sort_values`
raises KeyError, modelled by `none`. The default sort kind is quicksort,
whose tie order is not specified by pandas; only the by-score descending
order is modelled here. -/
def sort_values_score (resultats : List AnalysisRecord) : Option (List AnalysisRecord) :=
  if resultats = [] then none else some (sortScoreDesc resultats)

/-- `AnalyseurBRVM.analyser`: the input is the per-instrument view of the
loaded data, each series already sorted by date (the grouping and date sort
are the loader's concern). Instruments with fewer than 50 observations are
skipped; each remaining one yields a row; rows are then sorted by score.
`none` models an uncaught exception. -/
def analyser (capital : ℚ) (input : List (String × List PyFloat)) :
    Option (List AnalysisRecord) :=
  (optMapList (fun e => analyser_entry capital e.1 e.2)
    (input.filter (fun e => decide (50 ≤ e.2.length)))).bind sort_values_score

-- ===========================================================================
-- Portfolio simulator, tab 4 of app.py (lines 410-535)
-- ===========================================================================

/-- One entry of the `portefeuille` list built at app.py lines 439-450. -/
structure Position where
  entreprise : String
  signal : String
  score : ℤ
  prix_Achat : PyFloat
  nb_Actions : ℤ
  montant_Investi : PyFloat
  stop_Loss : PyFloat
  take_Profit : PyFloat
  gain_si_TP : PyFloat
  perte_si_SL : PyFloat
deriving DecidableEq

/-- The portfolio-level values the simulator derives and displays. -/
structure Portefeuille where
  positions : List Position
  capital_investi_total : PyFloat
  capital_restant : PyFloat
  taux_invest : PyFloat
  gain_total_tp : PyFloat
  perte_totale_sl : PyFloat
  rendement_tp : PyFloat
  rendement_sl : PyFloat
  ratio_rr : PyFloat
deriving DecidableEq

/-- Outcome of the tab-4 simulator: the warning branch with no plan when the
strategy selects nothing, a computed plan, or an uncaught exception. -/
inductive SimOutcome where
  | empty : SimOutcome
  | plan : Portefeuille → SimOutcome
  | err : SimOutcome
deriving DecidableEq

/-- Body of the simulator loop at app.py lines 431-450 for one selected
record, with `capital_par_position` as the per-position budget. `none`
models the exception raised by `int()` on a non-finite quotient. -/
def build_position (capital_par_position : ℚ) (r : AnalysisRecord) : Option Position :=
  (nb_actions_of capital_par_position r.prix).map (fun nb_actions =>
    { entreprise := r.valeur
      signal := r.signal
      score := r.score
      prix_Achat := r.prix
      nb_Actions := nb_actions
      montant_Investi := PyFloat.fmul (PyFloat.fin (nb_actions : ℚ)) r.prix
      stop_Loss := r.stop_Loss
      take_Profit := r.take_Profit
      gain_si_TP := PyFloat.fmul (PyFloat.fsub r.take_Profit r.prix)
        (PyFloat.fin (nb_actions : ℚ))
      perte_si_SL := PyFloat.fmul (PyFloat.fsub r.prix r.stop_Loss)
        (PyFloat.fin (nb_actions : ℚ)) })

/-- The tab-4 portfolio simulator of app.py: even split of the simulation
capital over the selected records, position sizing per record, and the
aggregate metrics. `df_sim` is the record subset selected by the strategy
filter. -/
def simulate (capital_simulation : ℚ) (df_sim : List AnalysisRecord) : SimOutcome :=
  if df_sim.length = 0 then SimOutcome.empty
  else
    let capital_par_position : ℚ := capital_simulation / df_sim.length
    match optMapList (build_position capital_par_position) df_sim with
    | none => SimOutcome.err
    | some portefeuille =>
      let capital_investi_total :=
        portefeuille.foldl (fun acc p => PyFloat.fadd acc p.montant_Investi)
          (PyFloat.fin 0)
      let gain_total_tp := pandasSum (portefeuille.map Position.gain_si_TP)
      let perte_totale_sl := pandasSum (portefeuille.map Position.perte_si_SL)
      SimOutcome.plan
        { positions := portefeuille
          capital_investi_total := capital_investi_total
          capital_restant :=
            PyFloat.fsub (PyFloat.fin capital_simulation) capital_investi_total
          taux_invest := PyFloat.fmul
            (PyFloat.fdiv capital_investi_total (PyFloat.fin capital_simulation))
            (PyFloat.fin 100)
          gain_total_tp := gain_total_tp
          perte_totale_sl := perte_totale_sl
          rendement_tp := PyFloat.fmul
            (PyFloat.fdiv gain_total_tp capital_investi_total) (PyFloat.fin 100)
          rendement_sl := PyFloat.fmul
            (PyFloat.fdiv perte_totale_sl capital_investi_total) (PyFloat.fin 100)
          ratio_rr :=
            if PyFloat.fne perte_totale_sl (PyFloat.fin 0) then
              PyFloat.fabs (PyFloat.fdiv gain_total_tp perte_totale_sl)
            else PyFloat.fin 0 }

-- ===========================================================================
-- Claim C4: the scoring decomposition as the claim words it
-- ===========================================================================

/-- Modelled from the claim wording (C4): the RSI tier, contributing 0 when
RSI is unavailable. -/
def spec_rsi_tier (rsi : PyFloat) : ℤ :=
  if pd_notna rsi then
    if PyFloat.flt rsi (PyFloat.fin 30) then 3
    else if PyFloat.fle (PyFloat.fin 30) rsi && PyFloat.flt rsi (PyFloat.fin 40) then 2
    else if PyFloat.fle (PyFloat.fin 40) rsi && PyFloat.flt rsi (PyFloat.fin 50) then 1
    else 0
  else 0

/-- Modelled from the claim wording (C4): the MA-cross criterion, depending
only on MA20 and MA50 and contributing 0 when either is unavailable. -/
def spec_macross (mm20 mm50 : PyFloat) : ℤ :=
  if pd_notna mm20 && pd_notna mm50 && PyFloat.fgt mm20 mm50 then 2 else 0

/-- Modelled from the claim wording (C4): the price-above-average criterion,
depending only on its own inputs (the price and MA20) and contributing 0
when they are unavailable. -/
def spec_priceabove (prix mm20 : PyFloat) : ℤ :=
  if pd_notna prix && pd_notna mm20 && PyFloat.fgt prix mm20 then 1 else 0

/-- The price-above-average criterion as the code actually guards it: it
also requires MA50 to be available. -/
def spec_priceabove_amended (prix mm20 mm50 : PyFloat) : ℤ :=
  if pd_notna mm20 && pd_notna mm50 && PyFloat.fgt prix mm20 then 1 else 0

/-- Modelled from the claim wording (C4): the return tier, contributing 0
when the return is unavailable. -/
def spec_ret_tier (variation : PyFloat) : ℤ :=
  if PyFloat.fgt variation (PyFloat.fin 5) then 3
  else if PyFloat.fgt variation (PyFloat.fin 2) && PyFloat.fle variation (PyFloat.fin 5) then 2
  else if PyFloat.fgt variation (PyFloat.fin 0) && PyFloat.fle variation (PyFloat.fin 2) then 1
  else if PyFloat.flt variation (PyFloat.fin (-5)) then -1
  else 0

/-- Modelled from the claim wording (C4): clamp to [0,10] of the sum of the
four independent contributions. -/
def score_spec_C4 (rsi mm20 mm50 prix variation : PyFloat) : ℤ :=
  max 0 (min 10
    (spec_rsi_tier rsi + spec_macross mm20 mm50 + spec_priceabove prix mm20 +
      spec_ret_tier variation))

/-- The C4 decomposition amended to match the code: the price-above-average
contribution is also gated on MA50 availability. -/
def score_spec_C4_amended (rsi mm20 mm50 prix variation : PyFloat) : ℤ :=
  max 0 (min 10
    (spec_rsi_tier rsi + spec_macross mm20 mm50 +
      spec_priceabove_amended prix mm20 mm50 + spec_ret_tier variation))

-- ===========================================================================
-- Concrete inputs used by witnesses and counterexamples
-- ===========================================================================

/-- A 50-observation price series, constant at price `c`. -/
def serieConst (c : ℚ) : List PyFloat := List.replicate 50 (PyFloat.fin c)

/-- The analysis row the analyser produces for a 50-observation series
constant at 10 with capital 100 (RSI is NaN on a constant series, so the
displayed RSI falls back to 0; both rounded risk levels collapse onto the
price 10: round(9.5) = 10 under banker's rounding, and the rounded
potential loss round(0.5) collapses to 0). -/
def recTen (v : String) : AnalysisRecord :=
  { valeur := v
    prix := PyFloat.fin 10
    rsi := PyFloat.fin 0
    mm20 := PyFloat.fin 10
    mm50 := PyFloat.fin 10
    var_14j := PyFloat.fin 0
    score := 0
    signal := "❌ ATTENTE"
    stop_Loss := PyFloat.fin 10
    take_Profit := PyFloat.fin 11
    trailing_Stop := PyFloat.fin 10
    nb_Actions := 1
    montant_FCFA := PyFloat.fin 10
    gain_Potentiel := PyFloat.fin 1
    perte_Potentielle := PyFloat.fin 0
    ratio_RR := PyFloat.fin 2 }

/-- The analysis row the analyser produces for a 50-observation series
constant at 100 with capital 100 (the per-position budget 10 buys 0 shares
at price 100, so all position quantities are 0). -/
def recHundred (v : String) : AnalysisRecord :=
  { valeur := v
    prix := PyFloat.fin 100
    rsi := PyFloat.fin 0
    mm20 := PyFloat.fin 100
    mm50 := PyFloat.fin 100
    var_14j := PyFloat.fin 0
    score := 0
    signal := "❌ ATTENTE"
    stop_Loss := PyFloat.fin 95
    take_Profit := PyFloat.fin 110
    trailing_Stop := PyFloat.fin 97
    nb_Actions := 0
    montant_FCFA := PyFloat.fin 0
    gain_Potentiel := PyFloat.fin 0
    perte_Potentielle := PyFloat.fin 0
    ratio_RR := PyFloat.fin 0 }

-- ===========================================================================
-- Basic lemmas about the scoring components
-- ===========================================================================

lemma score_rsi_bounds (rsi : PyFloat) : 0 ≤ score_rsi rsi ∧ score_rsi rsi ≤ 3 := by
  unfold score_rsi; split_ifs <;> omega

lemma score_mm_bounds (mm20 mm50 prix : PyFloat) :
    0 ≤ score_mm mm20 mm50 prix ∧ score_mm mm20 mm50 prix ≤ 3 := by
  unfold score_mm; split_ifs <;> omega

lemma score_var_bounds (variation : PyFloat) :
    -1 ≤ score_var variation ∧ score_var variation ≤ 3 := by
  unfold score_var; split_ifs <;> omega

lemma calculer_score_bounds (rsi mm20 mm50 prix variation : PyFloat) :
    0 ≤ calculer_score rsi mm20 mm50 prix variation ∧
    calculer_score rsi mm20 mm50 prix variation ≤ 10 := by
  unfold calculer_score; omega

lemma score_rsi_eq_spec (rsi : PyFloat) : score_rsi rsi = spec_rsi_tier rsi := by
  cases rsi with
  | fin a =>
      by_cases h30 : a < 30
      · simp [score_rsi, spec_rsi_tier, pd_notna, PyFloat.flt, PyFloat.fle, h30]
      · by_cases h40 : a < 40
        · simp [score_rsi, spec_rsi_tier, pd_notna, PyFloat.flt, PyFloat.fle, h30, h40,
            le_of_not_lt h30]
        · by_cases h50 : a < 50
          · simp [score_rsi, spec_rsi_tier, pd_notna, PyFloat.flt, PyFloat.fle, h30, h40,
              h50, le_of_not_lt h40]
          · simp [score_rsi, spec_rsi_tier, pd_notna, PyFloat.flt, PyFloat.fle, h30, h40, h50]
  | nan => decide
  | inf => decide
  | ninf => decide

lemma score_mm_eq_spec (mm20 mm50 prix : PyFloat) :
    score_mm mm20 mm50 prix =
      spec_macross mm20 mm50 + spec_priceabove_amended prix mm20 mm50 := by
  unfold score_mm spec_macross spec_priceabove_amended
  cases hm : pd_notna mm20 <;> cases hn : pd_notna mm50 <;>
    cases hg : PyFloat.fgt mm20 mm50 <;> cases hp : PyFloat.fgt prix mm20 <;> simp

lemma score_var_eq_spec (variation : PyFloat) : score_var variation = spec_ret_tier variation := by
  cases variation with
  | fin a =>
      by_cases h5 : 5 < a
      · simp [score_var, spec_ret_tier, PyFloat.fgt, PyFloat.flt, PyFloat.fle, h5]
      · by_cases h2 : 2 < a
        · simp [score_var, spec_ret_tier, PyFloat.fgt, PyFloat.flt, PyFloat.fle, h5, h2,
            le_of_not_lt h5]
        · by_cases h0 : 0 < a
          · simp [score_var, spec_ret_tier, PyFloat.fgt, PyFloat.flt, PyFloat.fle, h5, h2,
              h0, le_of_not_lt h2]
          · by_cases hm5 : a < -5
            · simp [score_var, spec_ret_tier, PyFloat.fgt, PyFloat.flt, PyFloat.fle, h5,
                h2, h0, hm5]
            · simp [score_var, spec_ret_tier, PyFloat.fgt, PyFloat.flt, PyFloat.fle, h5,
                h2, h0, hm5]
  | nan => decide
  | inf => decide
  | ninf => decide

-- ===========================================================================
-- Claim C10
-- ===========================================================================

/-- C10: the raw (pre-clamp) sum of scoring contributions in calculer_score
is at most 9, so the upper clamp at 10 is never active and no input yields a
score of 10; the maximum attainable score is 9, reached for example at
RSI 20, MA20 10, MA50 5, price 20, return 10 percent. -/
theorem C10_raw_score_atmost_nine (rsi mm20 mm50 prix variation : PyFloat) :
    calculer_score_raw rsi mm20 mm50 prix variation ≤ 9 ∧
    calculer_score rsi mm20 mm50 prix variation ≤ 9 ∧
    calculer_score (PyFloat.fin 20) (PyFloat.fin 10) (PyFloat.fin 5) (PyFloat.fin 20)
      (PyFloat.fin 10) = 9 := by
  have h1 := score_rsi_bounds rsi
  have h2 := score_mm_bounds mm20 mm50 prix
  have h3 := score_var_bounds variation
  refine ⟨?_, ?_, by decide⟩
  · unfold calculer_score_raw; omega
  · unfold calculer_score calculer_score_raw; omega

-- ===========================================================================
-- Claim C4
-- ===========================================================================

/-- C4 counterexample: with MA50 unavailable but MA20 and the price
available, calculer_score gives the price-above-average criterion 0 points,
while the claimed decomposition into independent contributions gives it 1. -/
theorem C4_counterexample :
    calculer_score PyFloat.nan (PyFloat.fin 10) PyFloat.nan (PyFloat.fin 20) PyFloat.nan = 0 ∧
    score_spec_C4 PyFloat.nan (PyFloat.fin 10) PyFloat.nan (PyFloat.fin 20) PyFloat.nan = 1 := by
  decide

/-- C4 amended: calculer_score equals the clamp to [0,10] of the sum of the
four contributions, where the RSI tier, MA-cross criterion and return tier
are as the claim states them, but the price-above-average criterion is also
gated on MA50 availability (it contributes 0 whenever MA20 or MA50 is
unavailable, even if the price and MA20 are available). -/
theorem C4_score_decomposition (rsi mm20 mm50 prix variation : PyFloat) :
    calculer_score rsi mm20 mm50 prix variation =
      score_spec_C4_amended rsi mm20 mm50 prix variation := by
  have h1 := score_rsi_eq_spec rsi
  have h2 := score_mm_eq_spec mm20 mm50 prix
  have h3 := score_var_eq_spec variation
  unfold calculer_score calculer_score_raw score_spec_C4_amended
  rw [h1, h2, h3]
  omega

-- ===========================================================================
-- Claim C5
-- ===========================================================================

/-- C5: for every score s in [0,10], generer_signal maps s >= 7 to the
strong-buy label, 5 <= s < 7 to buy, 3 <= s < 5 to watch and s < 3 to wait
(the four buckets cover [0,10] with no gaps), and the classifier is a
deterministic function of the score that is monotone in aggressiveness. -/
theorem C5_signal_buckets (s t : ℤ) (hs0 : 0 ≤ s) (hs10 : s ≤ 10) (hst : s ≤ t) :
    (7 ≤ s → generer_signal s = "🔥 ACHAT FORT") ∧
    (5 ≤ s ∧ s < 7 → generer_signal s = "✅ ACHAT") ∧
    (3 ≤ s ∧ s < 5 → generer_signal s = "⚠️ SURVEILLER") ∧
    (s < 3 → generer_signal s = "❌ ATTENTE") ∧
    signal_rank (generer_signal s) ≤ signal_rank (generer_signal t) := by
  refine ⟨?_, ?_, ?_, ?_, ?_⟩
  · intro h; unfold generer_signal; rw [if_pos h]
  · rintro ⟨h1, h2⟩; unfold generer_signal; rw [if_neg (by omega), if_pos h1]
  · rintro ⟨h1, h2⟩
    unfold generer_signal; rw [if_neg (by omega), if_neg (by omega), if_pos h1]
  · intro h
    unfold generer_signal; rw [if_neg (by omega), if_neg (by omega), if_neg (by omega)]
  · unfold generer_signal
    split_ifs <;> first | decide | (exfalso; omega)

/-- C5 witness: instantiation at the scores 2 and 9. -/
theorem C5_signal_buckets_witness :
    (7 ≤ (2 : ℤ) → generer_signal 2 = "🔥 ACHAT FORT") ∧
    (5 ≤ (2 : ℤ) ∧ (2 : ℤ) < 7 → generer_signal 2 = "✅ ACHAT") ∧
    (3 ≤ (2 : ℤ) ∧ (2 : ℤ) < 5 → generer_signal 2 = "⚠️ SURVEILLER") ∧
    ((2 : ℤ) < 3 → generer_signal 2 = "❌ ATTENTE") ∧
    signal_rank (generer_signal 2) ≤ signal_rank (generer_signal 9) :=
  C5_signal_buckets 2 9 (by decide) (by decide) (by decide)

-- ===========================================================================
-- Evaluation of the analyser on the concrete witness series
-- ===========================================================================

set_option maxRecDepth 1600 in
lemma eval_prix_ten : prix_actuel (serieConst 10) = PyFloat.fin 10 := by
  with_unfolding_all decide

set_option maxRecDepth 1600 in
lemma eval_rsi_ten : rsi_actuel (serieConst 10) = PyFloat.nan := by
  with_unfolding_all decide

set_option maxRecDepth 1600 in
lemma eval_mm20_ten : mm20_actuel (serieConst 10) = PyFloat.fin 10 := by
  with_unfolding_all decide

set_option maxRecDepth 1600 in
lemma eval_mm50_ten : mm50_actuel (serieConst 10) = PyFloat.fin 10 := by
  with_unfolding_all decide

set_option maxRecDepth 1600 in
lemma eval_var_ten : variation_14 (serieConst 10) = PyFloat.fin 0 := by
  with_unfolding_all decide

set_option maxRecDepth 1600 in
lemma entry_ten (v : String) :
    analyser_entry 100 v (serieConst 10) = some (recTen v) := by
  unfold analyser_entry score_of stop_loss_of take_profit_of trailing_stop_of
    gain_potentiel_of perte_potentielle_of ratio_rr_of nb_actions_of
  rw [eval_prix_ten, eval_rsi_ten, eval_mm20_ten, eval_mm50_ten, eval_var_ten]
  have hna : pyIntF (PyFloat.fdiv (PyFloat.fin (100 * (POSITION_SIZE_PCT / 100)))
      (PyFloat.fin 10)) = some 1 := by with_unfolding_all decide
  rw [hna]
  unfold recTen
  simp only [Option.map_some', Option.some.injEq, AnalysisRecord.mk.injEq]
  refine ⟨trivial, ?_, ?_, ?_, ?_, ?_, ?_, ?_, ?_, ?_, ?_, ?_, ?_, ?_, ?_, ?_⟩ <;>
    with_unfolding_all decide

set_option maxRecDepth 1600 in
lemma analyser_ten :
    analyser 100 [("SNTS", serieConst 10)] = some [recTen "SNTS"] := by
  unfold analyser
  have hf : List.filter (fun e => decide (50 ≤ e.2.length))
      [("SNTS", serieConst 10)] = [("SNTS", serieConst 10)] := by
    with_unfolding_all decide
  rw [hf]
  simp [optMapList, entry_ten, sort_values_score, sortScoreDesc, insertScoreDesc]

set_option maxRecDepth 1600 in
lemma eval_prix_hundred : prix_actuel (serieConst 100) = PyFloat.fin 100 := by
  with_unfolding_all decide

set_option maxRecDepth 1600 in
lemma eval_rsi_hundred : rsi_actuel (serieConst 100) = PyFloat.nan := by
  with_unfolding_all decide

set_option maxRecDepth 1600 in
lemma eval_mm20_hundred : mm20_actuel (serieConst 100) = PyFloat.fin 100 := by
  with_unfolding_all decide

set_option maxRecDepth 1600 in
lemma eval_mm50_hundred : mm50_actuel (serieConst 100) = PyFloat.fin 100 := by
  with_unfolding_all decide

set_option maxRecDepth 1600 in
lemma eval_var_hundred : variation_14 (serieConst 100) = PyFloat.fin 0 := by
  with_unfolding_all decide

set_option maxRecDepth 1600 in
lemma entry_hundred (v : String) :
    analyser_entry 100 v (serieConst 100) = some (recHundred v) := by
  unfold analyser_entry score_of stop_loss_of take_profit_of trailing_stop_of
    gain_potentiel_of perte_potentielle_of ratio_rr_of nb_actions_of
  rw [eval_prix_hundred, eval_rsi_hundred, eval_mm20_hundred, eval_mm50_hundred,
    eval_var_hundred]
  have hna : pyIntF (PyFloat.fdiv (PyFloat.fin (100 * (POSITION_SIZE_PCT / 100)))
      (PyFloat.fin 100)) = some 0 := by with_unfolding_all decide
  rw [hna]
  unfold recHundred
  simp only [Option.map_some', Option.some.injEq, AnalysisRecord.mk.injEq]
  refine ⟨trivial, ?_, ?_, ?_, ?_, ?_, ?_, ?_, ?_, ?_, ?_, ?_, ?_, ?_, ?_, ?_⟩ <;>
    with_unfolding_all decide

set_option maxRecDepth 1600 in
lemma analyser_hundred :
    analyser 100 [("SGBC", serieConst 100)] = some [recHundred "SGBC"] := by
  unfold analyser
  have hf : List.filter (fun e => decide (50 ≤ e.2.length))
      [("SGBC", serieConst 100)] = [("SGBC", serieConst 100)] := by
    with_unfolding_all decide
  rw [hf]
  simp [optMapList, entry_hundred, sort_values_score, sortScoreDesc, insertScoreDesc]

set_option maxRecDepth 1600 in
lemma analyser_mixed :
    analyser 100 [("SNTS", serieConst 10), ("BICC", List.replicate 10 (PyFloat.fin 5))] =
      some [recTen "SNTS"] := by
  unfold analyser
  have hf : List.filter (fun e => decide (50 ≤ e.2.length))
      [("SNTS", serieConst 10), ("BICC", List.replicate 10 (PyFloat.fin 5))] =
      [("SNTS", serieConst 10)] := by
    with_unfolding_all decide
  rw [hf]
  simp [optMapList, entry_ten, sort_values_score, sortScoreDesc, insertScoreDesc]

-- ===========================================================================
-- Structural lemmas about the analyser
-- ===========================================================================

lemma optMapList_mem_src {f : α → Option β} {l : List α} {ys : List β}
    (h : optMapList f l = some ys) {y : β} (hy : y ∈ ys) : ∃ x ∈ l, f x = some y := by
  induction l generalizing ys with
  | nil =>
      unfold optMapList at h
      cases h
      simp at hy
  | cons a as ih =>
      unfold optMapList at h
      rw [Option.bind_eq_some] at h
      obtain ⟨b, hb, h2⟩ := h
      rw [Option.map_eq_some'] at h2
      obtain ⟨zs, hzs, rfl⟩ := h2
      rcases List.mem_cons.mp hy with rfl | hy2
      · exact ⟨a, List.mem_cons_self a as, hb⟩
      · obtain ⟨x, hx, hfx⟩ := ih hzs hy2
        exact ⟨x, List.mem_cons_of_mem a hx, hfx⟩

lemma optMapList_mem_tgt {f : α → Option β} {l : List α} {ys : List β}
    (h : optMapList f l = some ys) {x : α} (hx : x ∈ l) : ∃ y ∈ ys, f x = some y := by
  induction l generalizing ys with
  | nil => simp at hx
  | cons a as ih =>
      unfold optMapList at h
      rw [Option.bind_eq_some] at h
      obtain ⟨b, hb, h2⟩ := h
      rw [Option.map_eq_some'] at h2
      obtain ⟨zs, hzs, rfl⟩ := h2
      rcases List.mem_cons.mp hx with rfl | hx2
      · exact ⟨b, List.mem_cons_self b zs, hb⟩
      · obtain ⟨y, hy, hfy⟩ := ih hzs hx2
        exact ⟨y, List.mem_cons_of_mem b hy, hfy⟩

lemma optMapList_forall_some {f : α → Option β} {P : β → Prop} :
    ∀ {l : List α}, (∀ x ∈ l, ∃ y, f x = some y ∧ P y) →
      ∃ ys, optMapList f l = some ys ∧ ys.length = l.length ∧ ∀ y ∈ ys, P y := by
  intro l
  induction l with
  | nil => exact fun _ => ⟨[], rfl, rfl, by simp⟩
  | cons a as ih =>
      intro h
      obtain ⟨y, hy, hPy⟩ := h a (List.mem_cons_self a as)
      obtain ⟨ys, hys, hlen, hP⟩ := ih (fun x hx => h x (List.mem_cons_of_mem a hx))
      refine ⟨y :: ys, ?_, by simp [hlen], ?_⟩
      · unfold optMapList
        rw [hy, hys]
        rfl
      · intro z hz
        rcases List.mem_cons.mp hz with rfl | hz2
        · exact hPy
        · exact hP z hz2

lemma mem_insertScoreDesc {r x : AnalysisRecord} {l : List AnalysisRecord} :
    x ∈ insertScoreDesc r l ↔ x = r ∨ x ∈ l := by
  induction l with
  | nil => simp [insertScoreDesc]
  | cons a as ih =>
      unfold insertScoreDesc
      split_ifs with h
      · simp [List.mem_cons]
      · simp only [List.mem_cons, ih]
        tauto

lemma mem_sortScoreDesc {x : AnalysisRecord} {l : List AnalysisRecord} :
    x ∈ sortScoreDesc l ↔ x ∈ l := by
  induction l with
  | nil => simp [sortScoreDesc]
  | cons a as ih => simp [sortScoreDesc, mem_insertScoreDesc, ih]

lemma analyser_entry_some {capital : ℚ} {v : String} {closes : List PyFloat}
    {r : AnalysisRecord} (h : analyser_entry capital v closes = some r) :
    r.valeur = v ∧ r.prix = prix_actuel closes ∧ r.score = score_of closes ∧
    r.signal = generer_signal (score_of closes) ∧
    r.stop_Loss = pyRoundDig (stop_loss_of closes) 0 ∧
    r.take_Profit = pyRoundDig (take_profit_of closes) 0 := by
  unfold analyser_entry at h
  rw [Option.map_eq_some'] at h
  obtain ⟨na, _, rfl⟩ := h
  exact ⟨rfl, rfl, rfl, rfl, rfl, rfl⟩

lemma analyser_some {capital : ℚ} {input : List (String × List PyFloat)}
    {out : List AnalysisRecord} (h : analyser capital input = some out) :
    ∃ resultats,
      optMapList (fun e => analyser_entry capital e.1 e.2)
        (input.filter (fun e => decide (50 ≤ e.2.length))) = some resultats ∧
      resultats ≠ [] ∧ out = sortScoreDesc resultats := by
  unfold analyser at h
  rw [Option.bind_eq_some] at h
  obtain ⟨rs, hrs, hsort⟩ := h
  unfold sort_values_score at hsort
  by_cases he : rs = []
  · rw [if_pos he] at hsort
    cases hsort
  · rw [if_neg he] at hsort
    cases hsort
    exact ⟨rs, hrs, he, rfl⟩

-- ===========================================================================
-- Claim C1
-- ===========================================================================

/-- C1: calculer_score always returns an integer in [0,10] (including when
any indicator value is NaN), and consequently the score field of every row
emitted by a successful analyser run lies in [0,10]. -/
theorem C1_score_in_range (rsi mm20 mm50 prix variation : PyFloat) (capital : ℚ)
    (input : List (String × List PyFloat)) (out : List AnalysisRecord)
    (h : analyser capital input = some out) :
    (0 ≤ calculer_score rsi mm20 mm50 prix variation ∧
      calculer_score rsi mm20 mm50 prix variation ≤ 10) ∧
    ∀ r ∈ out, 0 ≤ r.score ∧ r.score ≤ 10 := by
  refine ⟨calculer_score_bounds rsi mm20 mm50 prix variation, ?_⟩
  intro r hr
  obtain ⟨rs, hrs, _, rfl⟩ := analyser_some h
  rw [mem_sortScoreDesc] at hr
  obtain ⟨e, _, he⟩ := optMapList_mem_src hrs hr
  have hscore := (analyser_entry_some he).2.2.1
  rw [hscore]
  unfold score_of
  exact calculer_score_bounds _ _ _ _ _

/-- C1 witness: the bounds at a concrete scoring tuple and on the concrete
analyser run over one 50-observation series constant at 10. -/
theorem C1_score_in_range_witness :
    ((0 ≤ calculer_score PyFloat.nan PyFloat.inf (PyFloat.fin 3) (PyFloat.fin 7) PyFloat.ninf ∧
      calculer_score PyFloat.nan PyFloat.inf (PyFloat.fin 3) (PyFloat.fin 7) PyFloat.ninf ≤ 10) ∧
    ∀ r ∈ [recTen "SNTS"], 0 ≤ r.score ∧ r.score ≤ 10) :=
  C1_score_in_range PyFloat.nan PyFloat.inf (PyFloat.fin 3) (PyFloat.fin 7) PyFloat.ninf
    100 [("SNTS", serieConst 10)] [recTen "SNTS"] analyser_ten

-- ===========================================================================
-- Claim C7
-- ===========================================================================

/-- C7 counterexample: on a dataset whose only instrument has 10 < 50
observations, the analyser does not return an empty collection with the
instrument silently excluded: the row list is empty, `pd.DataFrame([])` has
no Score column, and `sort_values('Score', ...)` raises KeyError (modelled
by `none`). -/
theorem C7_counterexample :
    analyser 100 [("BICC", List.replicate 10 (PyFloat.fin 5))] = none := by
  with_unfolding_all decide

/-- C7 amended: on a successful analyser run (which requires at least one
instrument with at least 50 observations), a record is emitted for an
instrument if and only if that instrument has a series with at least 50
observations, and instruments with fewer are silently excluded; but when
every instrument is shorter than 50 observations, the analyser raises
(KeyError on sorting the empty frame) instead of returning an empty
collection. -/
theorem C7_emission_iff (capital : ℚ) (input : List (String × List PyFloat)) (v : String) :
    (∀ out, analyser capital input = some out →
      ((∃ r ∈ out, r.valeur = v) ↔ ∃ s, (v, s) ∈ input ∧ 50 ≤ s.length)) ∧
    ((∀ e ∈ input, e.2.length < 50) → analyser capital input = none) := by
  constructor
  · intro out h
    obtain ⟨rs, hrs, _, rfl⟩ := analyser_some h
    constructor
    · rintro ⟨r, hr, hv⟩
      rw [mem_sortScoreDesc] at hr
      obtain ⟨e, hef, he⟩ := optMapList_mem_src hrs hr
      obtain ⟨hein, helen⟩ := List.mem_filter.mp hef
      rw [decide_eq_true_eq] at helen
      obtain ⟨e1, e2⟩ := e
      have hname := (analyser_entry_some he).1
      refine ⟨e2, ?_, helen⟩
      rw [← hv, hname]
      exact hein
    · rintro ⟨s, hs, hlen⟩
      have hmemf : (v, s) ∈ input.filter (fun e => decide (50 ≤ e.2.length)) :=
        List.mem_filter.mpr ⟨hs, by rw [decide_eq_true_eq]; exact hlen⟩
      obtain ⟨r, hr, he⟩ := optMapList_mem_tgt hrs hmemf
      exact ⟨r, mem_sortScoreDesc.mpr hr, (analyser_entry_some he).1⟩
  · intro hall
    have hf : input.filter (fun e => decide (50 ≤ e.2.length)) = [] := by
      rw [List.filter_eq_nil_iff]
      intro e he
      rw [decide_eq_true_eq]
      have := hall e he
      omega
    unfold analyser
    rw [hf]
    rfl

/-- C7 witness: on a dataset with one 50-observation instrument and one
10-observation instrument, the long one is emitted and the short one is
silently excluded; a dataset with only the short instrument raises. -/
theorem C7_emission_iff_witness :
    ((∃ r ∈ [recTen "SNTS"], r.valeur = "SNTS") ↔
      ∃ s, ("SNTS", s) ∈ [("SNTS", serieConst 10),
        ("BICC", List.replicate 10 (PyFloat.fin 5))] ∧ 50 ≤ s.length) ∧
    analyser 100 [("BICC", List.replicate 10 (PyFloat.fin 5))] = none :=
  ⟨(C7_emission_iff 100 [("SNTS", serieConst 10),
      ("BICC", List.replicate 10 (PyFloat.fin 5))] "SNTS").1 [recTen "SNTS"] analyser_mixed,
   (C7_emission_iff 100 [("BICC", List.replicate 10 (PyFloat.fin 5))] "BICC").2
     (by intro e he; rw [List.mem_singleton] at he; subst he; decide)⟩

-- ===========================================================================
-- Claim C6
-- ===========================================================================

lemma rat_floor_eq_floor (q : ℚ) : q.floor = ⌊q⌋ := rfl

lemma pyRoundHalfEven_bounds (x : ℚ) :
    x - 1 / 2 ≤ (pyRoundHalfEven x : ℚ) ∧ (pyRoundHalfEven x : ℚ) ≤ x + 1 / 2 := by
  have h1 : (⌊x⌋ : ℚ) ≤ x := Int.floor_le x
  have h2 : x < ⌊x⌋ + 1 := Int.lt_floor_add_one x
  simp only [pyRoundHalfEven, rat_floor_eq_floor]
  split_ifs <;> constructor <;> push_cast <;> linarith

lemma pyRoundDig_zero_fin (q : ℚ) :
    pyRoundDig (PyFloat.fin q) 0 = PyFloat.fin (pyRoundHalfEven q : ℚ) := by
  simp [pyRoundDig, pow10]

/-- C6 counterexample: at price 10 the stored rounded stop-loss, which is
round(10 times 0.95) = round(9.5) = 10 under banker's rounding, equals the
price itself, so the strict ordering stop-loss < price fails on the stored
values of this record. -/
theorem C6_counterexample :
    analyser 100 [("SNTS", serieConst 10)] = some [recTen "SNTS"] ∧
    (recTen "SNTS").prix = PyFloat.fin 10 ∧
    (recTen "SNTS").stop_Loss = PyFloat.fin 10 ∧
    PyFloat.flt ((recTen "SNTS").stop_Loss) ((recTen "SNTS").prix) = false :=
  ⟨analyser_ten, rfl, rfl, by decide⟩

/-- C6 amended: every record of a successful analyser run with finite
positive price P stores stop-loss round(P * 0.95) and take-profit
round(P * 1.10) (banker's rounding of the fixed default percentages), and
the strict ordering stop-loss < P < take-profit holds for the stored
rounded values whenever P > 10 (for small prices the rounding can collapse
a level onto P, as at P = 10). -/
theorem C6_risk_levels (capital : ℚ) (input : List (String × List PyFloat))
    (out : List AnalysisRecord) (r : AnalysisRecord) (P : ℚ)
    (h : analyser capital input = some out) (hr : r ∈ out)
    (hP : r.prix = PyFloat.fin P) (hpos : 0 < P) :
    r.stop_Loss = PyFloat.fin (pyRoundHalfEven (P * (19 / 20)) : ℚ) ∧
    r.take_Profit = PyFloat.fin (pyRoundHalfEven (P * (11 / 10)) : ℚ) ∧
    (10 < P → (pyRoundHalfEven (P * (19 / 20)) : ℚ) < P ∧
      P < (pyRoundHalfEven (P * (11 / 10)) : ℚ)) := by
  obtain ⟨rs, hrs, _, rfl⟩ := analyser_some h
  rw [mem_sortScoreDesc] at hr
  obtain ⟨e, _, he⟩ := optMapList_mem_src hrs hr
  obtain ⟨_, hprix, _, _, hstop, htake⟩ := analyser_entry_some he
  rw [hprix] at hP
  have hc1 : (1 + STOP_LOSS_PCT / 100 : ℚ) = 19 / 20 := by norm_num [STOP_LOSS_PCT]
  have hc2 : (1 + TAKE_PROFIT_PCT / 100 : ℚ) = 11 / 10 := by norm_num [TAKE_PROFIT_PCT]
  have hsl : stop_loss_of e.2 = PyFloat.fin (P * (19 / 20)) := by
    unfold stop_loss_of
    rw [hP, hc1]
    rfl
  have htp : take_profit_of e.2 = PyFloat.fin (P * (11 / 10)) := by
    unfold take_profit_of
    rw [hP, hc2]
    rfl
  refine ⟨?_, ?_, ?_⟩
  · rw [hstop, hsl, pyRoundDig_zero_fin]
  · rw [htake, htp, pyRoundDig_zero_fin]
  · intro hp10
    have hb1 := (pyRoundHalfEven_bounds (P * (19 / 20))).2
    have hb2 := (pyRoundHalfEven_bounds (P * (11 / 10))).1
    constructor <;> linarith

/-- C6 witness: the record produced for a 50-observation series constant at
price 100 stores stop-loss 95 and take-profit 110, strictly bracketing the
price. -/
theorem C6_risk_levels_witness :
    (recHundred "SGBC").stop_Loss = PyFloat.fin (pyRoundHalfEven ((100 : ℚ) * (19 / 20)) : ℚ) ∧
    (recHundred "SGBC").take_Profit = PyFloat.fin (pyRoundHalfEven ((100 : ℚ) * (11 / 10)) : ℚ) ∧
    ((pyRoundHalfEven ((100 : ℚ) * (19 / 20)) : ℚ) < 100 ∧
      (100 : ℚ) < (pyRoundHalfEven ((100 : ℚ) * (11 / 10)) : ℚ)) := by
  have h := C6_risk_levels 100 [("SGBC", serieConst 100)] [recHundred "SGBC"]
    (recHundred "SGBC") 100 analyser_hundred (List.mem_singleton.mpr rfl) rfl (by norm_num)
  exact ⟨h.1, h.2.1, h.2.2 (by norm_num)⟩

-- ===========================================================================
-- Claim C3
-- ===========================================================================

lemma pyTrunc_nonneg_eq_floor {q : ℚ} (h : 0 ≤ q) : pyTrunc q = ⌊q⌋ := by
  unfold pyTrunc
  rw [if_pos h, rat_floor_eq_floor]

/-- C3 counterexample: the position-sizing computation has no degenerate
case guard. At budget 100 and price -10 it returns -10 shares (a negative
count, not 0) with an invested amount of 100 (not 0); at price 0 Python
raises (int() of an infinite quotient), it does not return 0 shares. -/
theorem C3_counterexample :
    nb_actions_of 100 (PyFloat.fin (-10)) = some (-10) ∧
    PyFloat.fmul (PyFloat.fin ((-10 : ℤ) : ℚ)) (PyFloat.fin (-10)) = PyFloat.fin 100 ∧
    nb_actions_of 100 (PyFloat.fin 0) = none := by
  refine ⟨?_, ?_, ?_⟩ <;> with_unfolding_all decide

/-- C3 amended: with a strictly positive price and a nonnegative budget the
position-sizing computation is total: it returns exactly floor(budget /
price) shares, the count is a nonnegative integer, and the invested amount
shareCount times price is at most the budget. The degenerate-case guard
described by the claim does not exist: price 0 raises and a negative price
yields a negative share count. -/
theorem C3_position_sizing (budget prix : ℚ) (hb : 0 ≤ budget) (hp : 0 < prix) :
    nb_actions_of budget (PyFloat.fin prix) = some ⌊budget / prix⌋ ∧
    0 ≤ ⌊budget / prix⌋ ∧
    PyFloat.fmul (PyFloat.fin ((⌊budget / prix⌋ : ℤ) : ℚ)) (PyFloat.fin prix) =
      PyFloat.fin ((⌊budget / prix⌋ : ℚ) * prix) ∧
    (⌊budget / prix⌋ : ℚ) * prix ≤ budget := by
  have hne : prix ≠ 0 := ne_of_gt hp
  have hq : (0 : ℚ) ≤ budget / prix := div_nonneg hb hp.le
  refine ⟨?_, Int.floor_nonneg.mpr hq, rfl, ?_⟩
  · unfold nb_actions_of
    rw [show PyFloat.fdiv (PyFloat.fin budget) (PyFloat.fin prix) =
          PyFloat.fin (budget / prix) from by simp [PyFloat.fdiv, hne]]
    simp [pyIntF, pyTrunc_nonneg_eq_floor hq]
  · calc (⌊budget / prix⌋ : ℚ) * prix
        ≤ (budget / prix) * prix := mul_le_mul_of_nonneg_right (Int.floor_le _) hp.le
      _ = budget := div_mul_cancel₀ budget hne

/-- C3 witness: budget 100 at price 7 buys exactly 14 shares for 98. -/
theorem C3_position_sizing_witness :
    nb_actions_of 100 (PyFloat.fin 7) = some ⌊(100 : ℚ) / 7⌋ ∧
    0 ≤ ⌊(100 : ℚ) / 7⌋ ∧
    PyFloat.fmul (PyFloat.fin ((⌊(100 : ℚ) / 7⌋ : ℤ) : ℚ)) (PyFloat.fin 7) =
      PyFloat.fin ((⌊(100 : ℚ) / 7⌋ : ℚ) * 7) ∧
    (⌊(100 : ℚ) / 7⌋ : ℚ) * 7 ≤ 100 :=
  C3_position_sizing 100 7 (by norm_num) (by norm_num)

-- ===========================================================================
-- Claim C9
-- ===========================================================================

/-- C9 counterexample: on an empty selection the simulator returns the
warning outcome, which carries no portfolio plan at all: no positions, no
idle-cash figure, no aggregates are computed or reported, contrary to the
claimed well-formed empty plan with idle cash equal to the capital. -/
theorem C9_counterexample :
    simulate 100 [] = SimOutcome.empty ∧
    simulate 100 [] ≠ SimOutcome.err ∧
    simulate 100 [] ≠ SimOutcome.plan
      { positions := [], capital_investi_total := PyFloat.fin 0,
        capital_restant := PyFloat.fin 100, taux_invest := PyFloat.fin 0,
        gain_total_tp := PyFloat.fin 0, perte_totale_sl := PyFloat.fin 0,
        rendement_tp := PyFloat.fin 0, rendement_sl := PyFloat.fin 0,
        ratio_rr := PyFloat.fin 0 } := by
  refine ⟨rfl, ?_, ?_⟩ <;> intro hcontra <;> cases hcontra

/-- C9 amended: on an empty selection the simulator takes the warning
branch before any arithmetic: it raises no error and divides by nothing,
but it produces no portfolio plan at all rather than a well-formed empty
plan reporting all capital as idle. -/
theorem C9_empty_selection (capital : ℚ) : simulate capital [] = SimOutcome.empty := rfl

-- ===========================================================================
-- Claim C2
-- ===========================================================================

lemma build_position_spec {cpp : ℚ} (hcpp : 0 ≤ cpp) {r : AnalysisRecord} {p : ℚ}
    (hp : r.prix = PyFloat.fin p) (hppos : 0 < p) :
    ∃ pos, build_position cpp r = some pos ∧
      ∃ m : ℚ, pos.montant_Investi = PyFloat.fin m ∧ 0 ≤ m ∧ m ≤ cpp := by
  have hne : p ≠ 0 := ne_of_gt hppos
  have hq : (0 : ℚ) ≤ cpp / p := div_nonneg hcpp hppos.le
  have hna : nb_actions_of cpp r.prix = some ⌊cpp / p⌋ := by
    unfold nb_actions_of
    rw [hp]
    rw [show PyFloat.fdiv (PyFloat.fin cpp) (PyFloat.fin p) = PyFloat.fin (cpp / p) from by
      simp [PyFloat.fdiv, hne]]
    simp [pyIntF, pyTrunc_nonneg_eq_floor hq]
  refine ⟨_, by unfold build_position; rw [hna]; rfl, ⟨(⌊cpp / p⌋ : ℚ) * p, ?_, ?_, ?_⟩⟩
  · show PyFloat.fmul (PyFloat.fin ((⌊cpp / p⌋ : ℤ) : ℚ)) r.prix = _
    rw [hp]
    rfl
  · have h0 : (0 : ℚ) ≤ (⌊cpp / p⌋ : ℚ) := by
      exact_mod_cast Int.floor_nonneg.mpr hq
    exact mul_nonneg h0 hppos.le
  · calc (⌊cpp / p⌋ : ℚ) * p
        ≤ (cpp / p) * p := mul_le_mul_of_nonneg_right (Int.floor_le _) hppos.le
      _ = cpp := div_mul_cancel₀ cpp hne

lemma fold_montant_spec (cpp : ℚ) :
    ∀ (ps : List Position) (a : ℚ),
      (∀ pos ∈ ps, ∃ m : ℚ, pos.montant_Investi = PyFloat.fin m ∧ 0 ≤ m ∧ m ≤ cpp) →
      ∃ t : ℚ,
        ps.foldl (fun acc pos => PyFloat.fadd acc pos.montant_Investi) (PyFloat.fin a) =
          PyFloat.fin (a + t) ∧ 0 ≤ t ∧ t ≤ ps.length * cpp := by
  intro ps
  induction ps with
  | nil =>
      intro a _
      exact ⟨0, by simp, le_refl 0, by simp⟩
  | cons x xs ih =>
      intro a h
      obtain ⟨m, hm, hm0, hmc⟩ := h x (List.mem_cons_self x xs)
      obtain ⟨t, ht, ht0, htc⟩ := ih (a + m) (fun pos hpos => h pos (List.mem_cons_of_mem x hpos))
      refine ⟨m + t, ?_, by positivity, ?_⟩
      · simp only [List.foldl_cons, hm]
        rw [show PyFloat.fadd (PyFloat.fin a) (PyFloat.fin m) = PyFloat.fin (a + m) from rfl,
          ht, add_assoc]
      · have hcast : ((x :: xs).length : ℚ) = (xs.length : ℚ) + 1 := by
          push_cast [List.length_cons]
          ring
        rw [hcast]
        have hcpp0 : 0 ≤ cpp := le_trans hm0 hmc
        nlinarith [htc, hmc, hcpp0]

/-- C2: for a portfolio simulation over at least one selected record with
finite strictly positive prices and a nonnegative capital, the simulator
returns a plan in which every per-position invested amount, which is
floor(capitalPerPosition / price) shares times the price, is at most
capitalPerPosition = totalCapital / N; the total invested is at most
totalCapital; and the reported idle cash is exactly totalCapital minus the
total invested, so invested plus idle equals totalCapital exactly. -/
theorem C2_portfolio_conservation (C : ℚ) (recs : List AnalysisRecord)
    (hC : 0 ≤ C) (hne : recs ≠ [])
    (hpos : ∀ r ∈ recs, ∃ p : ℚ, r.prix = PyFloat.fin p ∧ 0 < p) :
    ∃ plan, simulate C recs = SimOutcome.plan plan ∧
      (∀ pos ∈ plan.positions, ∃ m : ℚ, pos.montant_Investi = PyFloat.fin m ∧
        0 ≤ m ∧ m ≤ C / recs.length) ∧
      ∃ t : ℚ, plan.capital_investi_total = PyFloat.fin t ∧ 0 ≤ t ∧ t ≤ C ∧
        plan.capital_restant = PyFloat.fin (C - t) ∧ t + (C - t) = C := by
  have hlen : recs.length ≠ 0 := fun hcontra => hne (List.length_eq_zero.mp hcontra)
  have hlenq : (0 : ℚ) < (recs.length : ℚ) := by
    have : 0 < recs.length := Nat.pos_of_ne_zero hlen
    exact_mod_cast this
  have hcpp : 0 ≤ C / (recs.length : ℚ) := div_nonneg hC hlenq.le
  obtain ⟨ps, hps, hplen, hP⟩ := optMapList_forall_some
    (f := build_position (C / (recs.length : ℚ)))
    (P := fun pos => ∃ m : ℚ, pos.montant_Investi = PyFloat.fin m ∧
      0 ≤ m ∧ m ≤ C / (recs.length : ℚ))
    (fun r hr => by
      obtain ⟨p, hp, hppos⟩ := hpos r hr
      obtain ⟨pos, h1, h2⟩ := build_position_spec hcpp hp hppos
      exact ⟨pos, h1, h2⟩)
  obtain ⟨t, ht, ht0, htb⟩ := fold_montant_spec (C / (recs.length : ℚ)) ps 0 hP
  rw [zero_add] at ht
  have htC : t ≤ C := by
    have h1 : (ps.length : ℚ) * (C / (recs.length : ℚ)) = C := by
      rw [hplen]
      field_simp
    rw [h1] at htb
    exact htb
  have hsim : simulate C recs = SimOutcome.plan
      { positions := ps
        capital_investi_total :=
          ps.foldl (fun acc pos => PyFloat.fadd acc pos.montant_Investi) (PyFloat.fin 0)
        capital_restant := PyFloat.fsub (PyFloat.fin C)
          (ps.foldl (fun acc pos => PyFloat.fadd acc pos.montant_Investi) (PyFloat.fin 0))
        taux_invest := PyFloat.fmul
          (PyFloat.fdiv
            (ps.foldl (fun acc pos => PyFloat.fadd acc pos.montant_Investi) (PyFloat.fin 0))
            (PyFloat.fin C))
          (PyFloat.fin 100)
        gain_total_tp := pandasSum (ps.map Position.gain_si_TP)
        perte_totale_sl := pandasSum (ps.map Position.perte_si_SL)
        rendement_tp := PyFloat.fmul
          (PyFloat.fdiv (pandasSum (ps.map Position.gain_si_TP))
            (ps.foldl (fun acc pos => PyFloat.fadd acc pos.montant_Investi) (PyFloat.fin 0)))
          (PyFloat.fin 100)
        rendement_sl := PyFloat.fmul
          (PyFloat.fdiv (pandasSum (ps.map Position.perte_si_SL))
            (ps.foldl (fun acc pos => PyFloat.fadd acc pos.montant_Investi) (PyFloat.fin 0)))
          (PyFloat.fin 100)
        ratio_rr :=
          if PyFloat.fne (pandasSum (ps.map Position.perte_si_SL)) (PyFloat.fin 0) then
            PyFloat.fabs (PyFloat.fdiv (pandasSum (ps.map Position.gain_si_TP))
              (pandasSum (ps.map Position.perte_si_SL)))
          else PyFloat.fin 0 } := by
    simp only [simulate]
    rw [if_neg hlen, hps]
  refine ⟨_, hsim, ?_, ⟨t, ?_, ht0, htC, ?_, by ring⟩⟩
  · intro pos hpos2
    exact hP pos hpos2
  · exact ht
  · show PyFloat.fsub (PyFloat.fin C)
      (ps.foldl (fun acc pos => PyFloat.fadd acc pos.montant_Investi) (PyFloat.fin 0)) =
      PyFloat.fin (C - t)
    rw [ht]
    show PyFloat.fin (C + -t) = PyFloat.fin (C - t)
    rw [← sub_eq_add_neg]

/-- C2 witness: a one-record portfolio with capital 100 at price 10. -/
theorem C2_portfolio_conservation_witness :
    ∃ plan, simulate 100 [recTen "SNTS"] = SimOutcome.plan plan ∧
      (∀ pos ∈ plan.positions, ∃ m : ℚ, pos.montant_Investi = PyFloat.fin m ∧
        0 ≤ m ∧ m ≤ 100 / (([recTen "SNTS"] : List AnalysisRecord).length : ℚ)) ∧
      ∃ t : ℚ, plan.capital_investi_total = PyFloat.fin t ∧ 0 ≤ t ∧ t ≤ 100 ∧
        plan.capital_restant = PyFloat.fin (100 - t) ∧ t + (100 - t) = 100 :=
  C2_portfolio_conservation 100 [recTen "SNTS"] (by norm_num) (by simp)
    (by
      intro r hr
      rw [List.mem_singleton] at hr
      subst hr
      exact ⟨10, rfl, by norm_num⟩)
